import Mathlib

/-!
# Verification of the nocaptchaai-selenium solver

A shallow embedding of `nocaptchaai_selenium/solver.py` (class `Solver`) and
proofs about its behaviour.

Modelling conventions:
* The mutable fields of the Python `Solver` object become the `Session`
  structure; every method becomes a pure function from a `Session` (plus the
  external inputs the method reads through the browser and the HTTP client)
  to a new `Session` together with an explicit record of the effects the
  method performed (solve POSTs, tile clicks, cursor movement, rendering
  context switches, recursive continuation).
* Browser and HTTP interactions are inputs: each invocation of a solver
  method consumes one "round" record holding what the driver and the API
  returned during that invocation.  The recursive solvers consume a list of
  rounds, one per invocation, by structural recursion.
* Python integers are `Int` (the counter `requests_left -= 1` may go
  negative), pixel coordinates and delays are `ℚ` (the Python code uses
  true division `size / 2` and `random.uniform`), and JSON shapes are
  records of `Option` fields mirroring the key-presence tests of the code.
-/

namespace NoCaptchaAISolver

/-- `leadMatch p s` : does the character list `s` start with `p`?
(Python substring search, helper.) -/
def leadMatch : List Char → List Char → Bool
  | [], _ => true
  | _ :: _, [] => false
  | p :: ps, c :: cs => p = c && leadMatch ps cs

/-- `hasSub pat s` : does `s` contain `pat` as a contiguous sublist?
(embeds Python's `pat in s` on strings). -/
def hasSub (pat : List Char) : List Char → Bool
  | [] => pat.isEmpty
  | c :: cs => leadMatch pat (c :: cs) || hasSub pat cs

/-- Python `keyword in target` on strings. -/
def strHasSub (pat s : String) : Bool :=
  hasSub pat.data s.data

/-- Python `str.lower()` (ASCII case folding, as `Char.toLower` does). -/
def pyLower (s : String) : String :=
  ⟨s.data.map Char.toLower⟩

/-- Drop leading whitespace characters (helper for `pyStrip`). -/
def dropLeadWs : List Char → List Char
  | [] => []
  | c :: cs => if c.isWhitespace then dropLeadWs cs else c :: cs

/-- Python `str.strip()`: remove leading and trailing whitespace. -/
def pyStrip (s : String) : String :=
  ⟨((dropLeadWs s.data).reverse |> dropLeadWs).reverse⟩

/-- `GRID_CHALLENGE_PROMPTS` from solver.py. -/
def GRID_CHALLENGE_PROMPTS : List String :=
  ["please click each image containing",
   "please click on all images containing"]

/-- `BOUNDING_BOX_CHALLENGE_PROMPTS` from solver.py. -/
def BOUNDING_BOX_CHALLENGE_PROMPTS : List String :=
  ["please click the center of the",
   "please click on the"]

/-- `MULTIPLE_CHOICE_CHALLENGE_PROMPTS` from solver.py. -/
def MULTIPLE_CHOICE_CHALLENGE_PROMPTS : List String :=
  ["select the most accurate description of the image"]

/-- The mutable state of a `Solver` object: fields `balance`,
`requests_left`, `solved`, `api_error`, `target`, `captcha_type` of
solver.py.  `captcha_type` is `int | None` in the source (0 = grid,
1 = bounding box, 2 = multiple choice, `None` = unknown), so it is
`Option Nat` here. -/
structure Session where
  balance : Int
  requests_left : Int
  solved : Bool
  api_error : Bool
  target : String
  captcha_type : Option Nat
  deriving DecidableEq, Repr

/-- The fresh state set up by the class-level defaults of `Solver`. -/
def Session.fresh : Session :=
  { balance := 0, requests_left := 0, solved := false, api_error := false,
    target := "", captcha_type := none }

/-- `any(keyword in target for keyword in GRID_CHALLENGE_PROMPTS)`. -/
def gridMatches (target : String) : Bool :=
  GRID_CHALLENGE_PROMPTS.any (fun k => strHasSub k target)

/-- `any(keyword in target for keyword in BOUNDING_BOX_CHALLENGE_PROMPTS)`. -/
def bboxMatches (target : String) : Bool :=
  BOUNDING_BOX_CHALLENGE_PROMPTS.any (fun k => strHasSub k target)

/-- `any(keyword in target for keyword in MULTIPLE_CHOICE_CHALLENGE_PROMPTS)`. -/
def mcMatches (target : String) : Bool :=
  MULTIPLE_CHOICE_CHALLENGE_PROMPTS.any (fun k => strHasSub k target)

/-- `Solver.identify_challenge` from solver.py: lower-case and strip the
target, then run the three `if any(keyword in target ...)` checks in
order; each later match overwrites `captcha_type`; no match leaves the
field as it was. -/
def identify_challenge (s : Session) : Session :=
  let target : String := pyStrip (pyLower s.target)
  let t0 : Option Nat := if gridMatches target then some 0 else s.captcha_type
  let t1 : Option Nat := if bboxMatches target then some 1 else t0
  let t2 : Option Nat := if mcMatches target then some 2 else t1
  { s with captcha_type := t2 }

/-- The nested `Subscription` object of a pro-tier balance response: its
`remaining` key may itself be present or absent. -/
structure SubscriptionJson where
  remaining : Option Int
  deriving DecidableEq, Repr

/-- The JSON body of a balance response, as `has_balance` sees it:
`error`, `Balance`, `Subscription` (an object whose nested `remaining`
may in turn be absent), and top-level `remaining` are each present or
absent.  The code checks membership of `Subscription` and `Balance`, but
indexes `res_json["Subscription"]["remaining"]` without checking the
inner key, so the nested key's presence is tracked separately. -/
structure BalanceJson where
  error : Option String
  balanceKey : Option Int
  subscription : Option SubscriptionJson
  remaining : Option Int
  deriving DecidableEq, Repr

/-- The result of a call to `has_balance`: either a normal return with the
updated session, or an uncaught `KeyError` raised mid-update (solver.py
has no `try/except`, so the exception propagates out of `has_balance` and
out of `solve`).  The carried session is the object state at return or at
raise time. -/
inductive BalanceResult where
  | ok (s : Session)
  | keyError (s : Session)
  deriving DecidableEq, Repr

/-- The `Solver` object state at the end of the call, whether it returned
normally or raised. -/
def BalanceResult.session : BalanceResult → Session
  | .ok s => s
  | .keyError s => s

/-- `Solver.has_balance` from solver.py.  `api_url` is the tier name
("free" or "pro"); `resp` is `none` when the HTTP response is falsy
(`if not response`).  In the pro branch the membership guard covers
`"Subscription" in res_json and "Balance" in res_json` only; the code
first assigns `self.balance = res_json["Balance"]` and then evaluates
`res_json["Subscription"]["remaining"]`, whose inner `remaining` access
is unchecked and raises `KeyError` when the key is absent — at that point
`balance` has already been mutated and `requests_left` has not. -/
def has_balance (api_url : String) (s : Session) (resp : Option BalanceJson) :
    BalanceResult :=
  match resp with
  | none => .ok { s with api_error := true }
  | some j =>
    if j.error.isSome then
      .ok s
    else if api_url = "pro" && j.subscription.isSome && j.balanceKey.isSome then
      let s1 := { s with balance := j.balanceKey.getD 0 }
      match (j.subscription.getD { remaining := none }).remaining with
      | none => .keyError s1
      | some rem => .ok { s1 with requests_left := rem }
    else if api_url = "free" && j.remaining.isSome then
      .ok { s with balance := 0, requests_left := j.remaining.getD 0 }
    else
      .ok { s with api_error := true }

/-- The rendering context the driver is switched to: `default` is the main
page (`switch_to.default_content()`), `frame` is the challenge iframe
(`switch_to.frame(...)`). -/
inductive Ctx where
  | default
  | frame
  deriving DecidableEq, Repr

/-- Everything the browser and the API return during ONE invocation of
`Solver.solve_hcaptcha_grid`: the clickability probe, the `style`
attribute of each tile image, the solve POST response (its `status` and,
when solved, its `solution` list of tile indices), and the submit
button's `title` attribute. -/
structure GridRound where
  clickable : Bool
  tileStyles : List (Option String)
  status : String
  solution : List Nat
  submitLabel : Option String
  deriving DecidableEq, Repr

/-- The observable result of one invocation of `solve_hcaptcha_grid`:
the updated session, the rendering context on return (each invocation
starts at `Ctx.default`), the tile indices clicked in order, the
inter-click delays slept, the number of solve POSTs sent, the number of
refresh-button clicks, and whether the code reached the recursive call
(`label == "Next Challenge"` on the solved path). -/
structure GridOutcome where
  session : Session
  ctx : Ctx
  clicks : List Nat
  delays : List ℚ
  posts : Nat
  refreshClicks : Nat
  wantsNext : Bool
  deriving DecidableEq, Repr

/-- One invocation of `Solver.solve_hcaptcha_grid` from solver.py (the
body up to, but not including, the recursive call).  `rng n` is the
`n`-th value drawn from `random.uniform(0.2, 0.25)` in this invocation. -/
def solve_hcaptcha_grid_once (rng : ℕ → ℚ) (s : Session) (r : GridRound) :
    GridOutcome :=
  if r.clickable = false then
    -- the challenge disappeared: mark solved and return
    { session := { s with solved := true }, ctx := .default, clicks := [],
      delays := [], posts := 0, refreshClicks := 0, wantsNext := false }
  else if r.tileStyles.any (fun st => st.isNone) then
    -- a tile's style attribute is absent: return inside the iframe,
    -- before any POST
    { session := s, ctx := .frame, clicks := [], delays := [], posts := 0,
      refreshClicks := 0, wantsNext := false }
  else
    -- POST the problem, then `self.requests_left -= 1`
    let s1 := { s with requests_left := s.requests_left - 1 }
    if r.status = "solved" then
      { session := s1, ctx := .default,
        clicks := r.solution,
        delays := (List.range r.solution.length).map rng,
        posts := 1, refreshClicks := 0,
        wantsNext := r.submitLabel = some "Next Challenge" }
    else if r.status = "skip" ∨ r.status = "error" then
      { session := s1, ctx := .default, clicks := [], delays := [],
        posts := 1, refreshClicks := 1, wantsNext := false }
    else
      -- unrecognized status: the if/elif chain falls through and the
      -- method returns still inside the iframe
      { session := s1, ctx := .frame, clicks := [], delays := [],
        posts := 1, refreshClicks := 0, wantsNext := false }

/-- The recursion of `solve_hcaptcha_grid`, consuming one `GridRound` per
invocation.  Returns the final session, the final rendering context, and
the number of invocations that executed. -/
def solve_hcaptcha_grid (rng : ℕ → ℚ) : Session → List GridRound →
    Session × Ctx × Nat
  | s, [] => (s, .default, 0)
  | s, r :: rest =>
    let o := solve_hcaptcha_grid_once rng s r
    if o.wantsNext then
      let k := solve_hcaptcha_grid rng o.session rest
      (k.1, k.2.1, k.2.2 + 1)
    else
      (o.session, o.ctx, 1)

/-- Result of scanning the bbox poll loop's successive `status` values:
the loop breaks on "solved", returns on "error"/"skip", and keeps
polling on anything else (`pending` = no terminal status ever arrives,
i.e. the `while True` loop never exits). -/
inductive PollResult where
  | solvedR
  | skipOrErrorR
  | pending
  deriving DecidableEq, Repr

/-- The bbox poll loop (`while True: ...` in `solve_hcaptcha_bbox`),
scanning poll responses in order for the first terminal status. -/
def poll_scan : List String → PollResult
  | [] => .pending
  | st :: rest =>
    if st = "error" ∨ st = "skip" then .skipOrErrorR
    else if st = "solved" then .solvedR
    else poll_scan rest

/-- Everything the browser and the API return during ONE invocation of
`Solver.solve_hcaptcha_bbox`: the clickability probe, the canvas snapshot
script's result (`""` models a falsy result), the POST response status,
the successive poll response statuses, the `answer` point, the canvas
size, and the submit button's `title` attribute. -/
structure BboxRound where
  clickable : Bool
  imageBase64 : String
  postStatus : String
  pollStatuses : List String
  answer : ℚ × ℚ
  canvasW : ℚ
  canvasH : ℚ
  submitLabel : Option String
  deriving DecidableEq, Repr

/-- The observable result of one invocation of `solve_hcaptcha_bbox`:
updated session, rendering context on return, the `move_by_offset`
arguments when a click was performed, POST count, refresh clicks,
whether the recursive call is reached, and whether the invocation
terminates at all (`terminated = false` iff the poll loop never sees a
terminal status). -/
structure BboxOutcome where
  session : Session
  ctx : Ctx
  moveBy : Option (ℚ × ℚ)
  posts : Nat
  refreshClicks : Nat
  wantsNext : Bool
  terminated : Bool
  deriving DecidableEq, Repr

/-- One invocation of `Solver.solve_hcaptcha_bbox` from solver.py (the
body up to, but not including, the recursive call). -/
def solve_hcaptcha_bbox_once (s : Session) (r : BboxRound) : BboxOutcome :=
  if r.clickable = false then
    { session := { s with solved := true }, ctx := .default, moveBy := none,
      posts := 0, refreshClicks := 0, wantsNext := false, terminated := true }
  else if r.imageBase64 = "" then
    -- empty canvas snapshot: return inside the iframe, before any POST
    { session := s, ctx := .frame, moveBy := none, posts := 0,
      refreshClicks := 0, wantsNext := false, terminated := true }
  else
    -- POST the problem, then `self.requests_left -= 1`
    let s1 := { s with requests_left := s.requests_left - 1 }
    if r.postStatus = "error" then
      { session := s1, ctx := .default, moveBy := none, posts := 1,
        refreshClicks := 1, wantsNext := false, terminated := true }
    else
      match poll_scan r.pollStatuses with
      | .skipOrErrorR =>
        { session := s1, ctx := .default, moveBy := none, posts := 1,
          refreshClicks := 1, wantsNext := false, terminated := true }
      | .pending =>
        { session := s1, ctx := .frame, moveBy := none, posts := 1,
          refreshClicks := 0, wantsNext := false, terminated := false }
      | .solvedR =>
        let move_by_x : ℚ := r.canvasW / 2 - r.answer.1
        let move_by_y : ℚ := r.canvasH / 2 - r.answer.2
        { session := s1, ctx := .default,
          moveBy := some (move_by_x * (-1), move_by_y * (-1)),
          posts := 1, refreshClicks := 0,
          wantsNext := r.submitLabel = some "Next Challenge",
          terminated := true }

/-- The recursion of `solve_hcaptcha_bbox`, consuming one `BboxRound` per
invocation; returns final session, final context, invocation count. -/
def solve_hcaptcha_bbox : Session → List BboxRound → Session × Ctx × Nat
  | s, [] => (s, .default, 0)
  | s, r :: rest =>
    let o := solve_hcaptcha_bbox_once s r
    if o.wantsNext then
      let k := solve_hcaptcha_bbox o.session rest
      (k.1, k.2.1, k.2.2 + 1)
    else
      (o.session, o.ctx, 1)

/-- External inputs to one iteration of the `while not self.solved` loop in
`Solver.solve`: the balance response, whether `is_captcha_visible`
returned true, and the prompt text it stored into `self.target`. -/
structure LoopEnv where
  balanceResp : Option BalanceJson
  captchaVisible : Bool
  prompt : String
  deriving DecidableEq, Repr

/-- How one iteration of the `solve` loop ended. -/
inductive StepResult where
  /-- both quota counters exhausted: `return self.solved` -/
  | abortedQuota
  /-- `is_captcha_visible` false: `break` -/
  | doneInvisible
  /-- `case 0`: `solve_hcaptcha_grid` dispatched -/
  | dispatchedGrid
  /-- `case 1`: `solve_hcaptcha_bbox` dispatched -/
  | dispatchedBbox
  /-- `case 2`: `break` -/
  | doneMultipleChoice
  /-- no `case` of the `match` applies: the loop body just continues
  (sleep, then next iteration) -/
  | continuedNoSolver
  /-- `has_balance` raised an uncaught `KeyError`; the exception
  propagates out of `solve` (abnormal exit, neither `return` nor
  `break`) -/
  | raisedKeyError
  deriving DecidableEq, Repr

/-- Whether a `StepResult` exits the `while` loop of `Solver.solve`
(by `return`, by `break`, or by an uncaught exception). -/
def StepResult.exitsLoop : StepResult → Bool
  | .abortedQuota => true
  | .doneInvisible => true
  | .doneMultipleChoice => true
  | .dispatchedGrid => false
  | .dispatchedBbox => false
  | .continuedNoSolver => false
  | .raisedKeyError => true

/-- One iteration of the `while not self.solved` loop of `Solver.solve`,
up to the dispatch decision: refresh balance, check quota, check
visibility (which stores the prompt into `target`), classify, and match
on `captcha_type`.  Returns the session as it stands at the dispatch
point together with how the iteration ended. -/
def solve_iteration (api_url : String) (s : Session) (env : LoopEnv) :
    Session × StepResult :=
  match has_balance api_url s env.balanceResp with
  | .keyError s1 => (s1, .raisedKeyError)
  | .ok s1 =>
    if s1.balance ≤ 0 ∧ s1.requests_left ≤ 0 then
      ({ s1 with api_error := true }, .abortedQuota)
    else if env.captchaVisible = false then
      (s1, .doneInvisible)
    else
      let s2 := identify_challenge { s1 with target := env.prompt }
      match s2.captcha_type with
      | some 0 => (s2, .dispatchedGrid)
      | some 1 => (s2, .dispatchedBbox)
      | some 2 => (s2, .doneMultipleChoice)
      | _ => (s2, .continuedNoSolver)

/-- A single full solve attempt (one grid POST or one bbox POST with its
polls), for the quota-bookkeeping statements. -/
inductive Attempt where
  | gridA (r : GridRound)
  | bboxA (r : BboxRound)
  deriving DecidableEq, Repr

/-- The session after one attempt. -/
def run_attempt (rng : ℕ → ℚ) (s : Session) : Attempt → Session
  | .gridA r => (solve_hcaptcha_grid_once rng s r).session
  | .bboxA r => (solve_hcaptcha_bbox_once s r).session

/-- How many solve POSTs one attempt performs. -/
def attempt_posts (rng : ℕ → ℚ) (s : Session) : Attempt → Nat
  | .gridA r => (solve_hcaptcha_grid_once rng s r).posts
  | .bboxA r => (solve_hcaptcha_bbox_once s r).posts

/-- Whether an attempt reaches its solve POST (grid: images clickable and
every tile has a style attribute; bbox: images clickable and non-empty
canvas snapshot). -/
def attempt_reaches_post : Attempt → Bool
  | .gridA r => r.clickable && !(r.tileStyles.any (fun st => st.isNone))
  | .bboxA r => r.clickable && !(r.imageBase64 = "")

/-- Run a sequence of attempts. -/
def run_attempts (rng : ℕ → ℚ) : Session → List Attempt → Session
  | s, [] => s
  | s, a :: rest => run_attempts rng (run_attempt rng s a) rest

/-! ## Concrete fixtures used by the witnesses and counterexamples -/

/-- Free-tier balance body `\x7b"remaining": r\x7d`. -/
def freeRemaining (r : Int) : BalanceJson :=
  { error := none, balanceKey := none, subscription := none,
    remaining := some r }

/-- Pro-tier balance body `\x7b"Balance": b, "Subscription": \x7b"remaining": r\x7d\x7d`. -/
def proBalance (b r : Int) : BalanceJson :=
  { error := none, balanceKey := some b,
    subscription := some { remaining := some r }, remaining := none }

/-- Pro-tier balance body `\x7b"Balance": b, "Subscription": \x7b\x7d\x7d`: both
membership-checked keys are present, but the nested `remaining` indexed
without a check is absent. -/
def proNoRemaining (b : Int) : BalanceJson :=
  { error := none, balanceKey := some b,
    subscription := some { remaining := none }, remaining := none }

/-- A loop iteration whose balance refresh reports zero remaining solves. -/
def exhaustedEnv : LoopEnv :=
  { balanceResp := some (freeRemaining 0), captchaVisible := true,
    prompt := "x" }

/-- A loop iteration with remaining quota and a prompt matching no phrase
set. -/
def unknownEnv : LoopEnv :=
  { balanceResp := some (freeRemaining 5), captchaVisible := true,
    prompt := "hello" }

/-- A loop iteration with remaining quota and a multiple-choice prompt. -/
def mcEnv : LoopEnv :=
  { balanceResp := some (freeRemaining 5), captchaVisible := true,
    prompt := "Select the most accurate description of the image" }

/-- A prompt containing a grid phrase, then a bbox phrase, then a
multiple-choice phrase. -/
def mixedPrompt : String :=
  "Please click each image containing cats, please click on the dog. Select the most accurate description of the image"

/-- The spec's override-order example prompt (grid phrase then bbox
phrase, no multiple-choice phrase). -/
def overridePrompt : String :=
  "please click each image containing cats, please click on the dog"

/-- A nine-tile grid round solved with selection `[2, 5]`, whose submit
button announces a next challenge. -/
def gridRound25 : GridRound :=
  { clickable := true,
    tileStyles := List.replicate 9 (some "background: url(img)"),
    status := "solved", solution := [2, 5],
    submitLabel := some "Next Challenge" }

/-- A grid round whose second tile has no style attribute. -/
def gridRoundNoStyle : GridRound :=
  { clickable := true, tileStyles := [some "background: url(img)", none],
    status := "solved", solution := [], submitLabel := none }

/-- A bbox round that polls once, gets solved with answer `(10, 20)` on a
`100 × 50` canvas, and whose submit button does not announce a next
challenge. -/
def bboxRoundSolved : BboxRound :=
  { clickable := true, imageBase64 := "abc", postStatus := "created",
    pollStatuses := ["processing", "solved"], answer := (10, 20),
    canvasW := 100, canvasH := 50, submitLabel := some "Verify" }

/-- A bbox round whose canvas snapshot script returns an empty result. -/
def bboxRoundNoImage : BboxRound :=
  { clickable := true, imageBase64 := "", postStatus := "created",
    pollStatuses := [], answer := (0, 0), canvasW := 0, canvasH := 0,
    submitLabel := none }

/-- A session that classified an earlier prompt as Grid and now carries a
prompt matching no phrase set. -/
def staleGridSession : Session :=
  { Session.fresh with target := "hello", captcha_type := some 0 }

/-! ## Helper lemmas -/

theorem has_balance_preserves (u : String) (s : Session)
    (resp : Option BalanceJson) :
    (has_balance u s resp).session.solved = s.solved ∧
    (has_balance u s resp).session.captcha_type = s.captcha_type ∧
    (has_balance u s resp).session.target = s.target := by
  cases resp with
  | none => exact ⟨rfl, rfl, rfl⟩
  | some j =>
    simp only [has_balance]
    split_ifs <;> try exact ⟨rfl, rfl, rfl⟩
    split <;> exact ⟨rfl, rfl, rfl⟩

/-- C1: when, after refreshing balance, both `balance ≤ 0` and
`requests_left ≤ 0` hold, the solve-loop iteration sets `api_error`,
returns `abortedQuota` with `solved = false`, and does not touch the
challenge-detection or classification state (`target` and `captcha_type`
are unchanged, no solver is dispatched). -/
theorem solve_aborts_on_exhausted_quota (u : String) (s : Session)
    (env : LoopEnv) (s1 : Session)
    (hok : has_balance u s env.balanceResp = BalanceResult.ok s1)
    (hs : s.solved = false)
    (hb : s1.balance ≤ 0)
    (hr : s1.requests_left ≤ 0) :
    (solve_iteration u s env).2 = StepResult.abortedQuota ∧
    (solve_iteration u s env).1.api_error = true ∧
    (solve_iteration u s env).1.solved = false ∧
    (solve_iteration u s env).1.captcha_type = s.captcha_type ∧
    (solve_iteration u s env).1.target = s.target := by
  obtain ⟨h1, h2, h3⟩ := has_balance_preserves u s env.balanceResp
  rw [hok] at h1 h2 h3
  have hcond : s1.balance ≤ 0 ∧ s1.requests_left ≤ 0 := ⟨hb, hr⟩
  simp only [solve_iteration, hok, if_pos hcond]
  exact ⟨trivial, trivial, h1.trans hs, h2, h3⟩

theorem solve_aborts_on_exhausted_quota_witness :
    Session.fresh.solved = false ∧
    has_balance "free" Session.fresh exhaustedEnv.balanceResp =
      BalanceResult.ok Session.fresh ∧
    Session.fresh.balance ≤ 0 ∧
    Session.fresh.requests_left ≤ 0 ∧
    (solve_iteration "free" Session.fresh exhaustedEnv).2 = StepResult.abortedQuota ∧
    (solve_iteration "free" Session.fresh exhaustedEnv).1.api_error = true ∧
    (solve_iteration "free" Session.fresh exhaustedEnv).1.solved = false :=
  ⟨by decide, by decide, by decide, by decide,
   (solve_aborts_on_exhausted_quota "free" Session.fresh exhaustedEnv
      Session.fresh (by decide) (by decide) (by decide) (by decide)).1,
   (solve_aborts_on_exhausted_quota "free" Session.fresh exhaustedEnv
      Session.fresh (by decide) (by decide) (by decide) (by decide)).2.1,
   (solve_aborts_on_exhausted_quota "free" Session.fresh exhaustedEnv
      Session.fresh (by decide) (by decide) (by decide) (by decide)).2.2.1⟩

/-- C6 counterexample: the pro-tier body `\x7b"Balance": 10,
"Subscription": \x7b\x7d\x7d` matches neither claimed shape, yet `has_balance`
does not return with `api_error = true` and counters unchanged: it
assigns `balance := 10` and then raises an uncaught `KeyError` on the
unchecked `res_json["Subscription"]["remaining"]` access (`api_error` is
never set, and `balance` was already mutated at the raise). -/
theorem has_balance_missing_remaining_cex :
    (proNoRemaining 10).remaining = none ∧
    (proNoRemaining 10).subscription = some { remaining := none } ∧
    has_balance "pro" Session.fresh (some (proNoRemaining 10)) =
      BalanceResult.keyError { Session.fresh with balance := 10 } ∧
    has_balance "pro" Session.fresh (some (proNoRemaining 10)) ≠
      BalanceResult.ok { Session.fresh with api_error := true } ∧
    (has_balance "pro" Session.fresh
        (some (proNoRemaining 10))).session.api_error = false ∧
    (has_balance "pro" Session.fresh
        (some (proNoRemaining 10))).session.balance = 10 := by
  decide

/-- C6 (amended): `has_balance` on a free-tier body with `remaining`
returns normally with `balance = 0`, `requests_left = r`; on a pro-tier
body with `Balance` and `Subscription.remaining` returns with
`balance = b`, `requests_left = r`; on a body carrying an `error` field
it returns with the whole session unchanged; on a body whose membership
guards both fail it returns with `api_error = true` and everything else
unchanged; EXCEPT that a pro-tier body with `Balance` and `Subscription`
keys present but `Subscription` lacking `remaining` (a neither-shape
body) first sets `balance` and then raises an uncaught `KeyError`
instead of setting `api_error`. -/
theorem has_balance_response_shapes :
    (∀ (s : Session) (r : Int),
        has_balance "free" s (some (freeRemaining r)) =
          BalanceResult.ok { s with balance := 0, requests_left := r }) ∧
    (∀ (s : Session) (b r : Int),
        has_balance "pro" s (some (proBalance b r)) =
          BalanceResult.ok { s with balance := b, requests_left := r }) ∧
    (∀ (u : String) (s : Session) (j : BalanceJson),
        j.error = none →
        (decide (u = "pro") && j.subscription.isSome &&
            j.balanceKey.isSome) = false →
        (decide (u = "free") && j.remaining.isSome) = false →
        has_balance u s (some j) =
          BalanceResult.ok { s with api_error := true }) ∧
    (∀ (u : String) (s : Session) (j : BalanceJson),
        j.error.isSome = true → has_balance u s (some j) = BalanceResult.ok s) ∧
    (∀ (s : Session) (b : Int),
        has_balance "pro" s (some (proNoRemaining b)) =
          BalanceResult.keyError { s with balance := b }) := by
  refine ⟨fun s r => rfl, fun s b r => rfl, ?_, ?_, fun s b => rfl⟩
  · intro u s j he hpro hfree
    simp [has_balance, he, hpro, hfree]
  · intro u s j he
    simp [has_balance, he]

theorem has_balance_response_shapes_witness :
    (has_balance "free" Session.fresh (some (freeRemaining 5)) =
      BalanceResult.ok { Session.fresh with balance := 0, requests_left := 5 }) ∧
    (has_balance "pro" Session.fresh (some (proBalance 10 3)) =
      BalanceResult.ok { Session.fresh with balance := 10, requests_left := 3 }) ∧
    ((proBalance 10 3).error = none ∧
     (decide (("free" : String) = "pro") && (proBalance 10 3).subscription.isSome &&
        (proBalance 10 3).balanceKey.isSome) = false ∧
     (decide (("free" : String) = "free") && (proBalance 10 3).remaining.isSome) = false ∧
     has_balance "free" Session.fresh (some (proBalance 10 3)) =
       BalanceResult.ok { Session.fresh with api_error := true }) ∧
    (has_balance "pro" Session.fresh (some (proNoRemaining 7)) =
      BalanceResult.keyError { Session.fresh with balance := 7 }) :=
  ⟨has_balance_response_shapes.1 Session.fresh 5,
   has_balance_response_shapes.2.1 Session.fresh 10 3,
   ⟨by decide, by decide, by decide,
    has_balance_response_shapes.2.2.1 "free" Session.fresh (proBalance 10 3)
      (by decide) (by decide) (by decide)⟩,
   has_balance_response_shapes.2.2.2.2 Session.fresh 7⟩

/-- C3 counterexample: a concrete iteration with remaining quota, a
visible captcha, and a prompt matching no phrase set, so that after
classification the type is still Unknown (`none`): the iteration ends
with `continuedNoSolver` — the loop does NOT exit, contradicting the
claim that for Unknown the controller exits the loop. -/
theorem solve_unknown_continues_cex :
    (solve_iteration "free" Session.fresh unknownEnv).1.captcha_type = none ∧
    (solve_iteration "free" Session.fresh unknownEnv).2 =
      StepResult.continuedNoSolver ∧
    StepResult.continuedNoSolver.exitsLoop = false := by
  decide

/-- C3 (amended): after classification the controller dispatches by
challenge type — Grid (`some 0`) runs the grid solver, BoundingBox
(`some 1`) runs the bbox solver, MultipleChoice (`some 2`) exits the loop
without solving; but for Unknown (`none`, or any other value) no `case`
of the `match` applies: the controller runs no solver and the loop
CONTINUES iterating rather than exiting. -/
theorem solve_dispatch_by_type (u : String) (s : Session) (env : LoopEnv)
    (s1 : Session)
    (hok : has_balance u s env.balanceResp = BalanceResult.ok s1)
    (hq : ¬(s1.balance ≤ 0 ∧ s1.requests_left ≤ 0))
    (hv : env.captchaVisible = true) :
    ((identify_challenge { s1 with target := env.prompt }).captcha_type
          = some 0 →
        (solve_iteration u s env).2 = StepResult.dispatchedGrid) ∧
    ((identify_challenge { s1 with target := env.prompt }).captcha_type
          = some 1 →
        (solve_iteration u s env).2 = StepResult.dispatchedBbox) ∧
    ((identify_challenge { s1 with target := env.prompt }).captcha_type
          = some 2 →
        (solve_iteration u s env).2 = StepResult.doneMultipleChoice ∧
        StepResult.doneMultipleChoice.exitsLoop = true) ∧
    ((identify_challenge { s1 with target := env.prompt }).captcha_type
          = none →
        (solve_iteration u s env).2 = StepResult.continuedNoSolver ∧
        StepResult.continuedNoSolver.exitsLoop = false) := by
  refine ⟨fun h => ?_, fun h => ?_, fun h => ?_, fun h => ?_⟩ <;>
    simp [solve_iteration, hok, if_neg hq, hv, h, StepResult.exitsLoop]

theorem solve_dispatch_by_type_witness :
    has_balance "free" Session.fresh mcEnv.balanceResp =
      BalanceResult.ok { Session.fresh with requests_left := 5 } ∧
    ¬(({ Session.fresh with requests_left := 5 } : Session).balance ≤ 0 ∧
      ({ Session.fresh with requests_left := 5 } : Session).requests_left ≤ 0) ∧
    (identify_challenge
      { ({ Session.fresh with requests_left := 5 } : Session) with
        target := mcEnv.prompt }).captcha_type = some 2 ∧
    (solve_iteration "free" Session.fresh mcEnv).2 =
      StepResult.doneMultipleChoice ∧
    StepResult.doneMultipleChoice.exitsLoop = true :=
  ⟨by decide, by decide, by decide,
   (solve_dispatch_by_type "free" Session.fresh mcEnv
      { Session.fresh with requests_left := 5 } (by decide) (by decide)
      (by decide)).2.2.1 (by decide)⟩

/-- C4 counterexample: a prompt containing a grid-phrase substring and a
bbox-phrase substring (and also a multiple-choice phrase) classifies as
MultipleChoice, not BoundingBox — the claim's universal "grid + bbox ⇒
BoundingBox" fails when a multiple-choice phrase is also present. -/
theorem classifier_override_order_cex :
    gridMatches (pyStrip (pyLower mixedPrompt)) = true ∧
    bboxMatches (pyStrip (pyLower mixedPrompt)) = true ∧
    (identify_challenge
      { Session.fresh with target := mixedPrompt }).captcha_type = some 2 ∧
    (identify_challenge
      { Session.fresh with target := mixedPrompt }).captcha_type ≠ some 1 := by
  decide

/-- C4 (amended): `identify_challenge` lower-cases and strips the prompt
and matches substrings against the three phrase sets with the override
order grid, then bounding-box, then multiple-choice, each later match
overwriting the type; hence a prompt containing a grid phrase and a bbox
phrase and NO multiple-choice phrase classifies as BoundingBox, while
any prompt containing a multiple-choice phrase classifies as
MultipleChoice regardless of the other sets. -/
theorem classifier_override_order :
    (∀ (s : Session) (p : String),
        gridMatches (pyStrip (pyLower p)) = true →
        bboxMatches (pyStrip (pyLower p)) = true →
        mcMatches (pyStrip (pyLower p)) = false →
        (identify_challenge { s with target := p }).captcha_type = some 1) ∧
    (∀ (s : Session) (p : String),
        mcMatches (pyStrip (pyLower p)) = true →
        (identify_challenge { s with target := p }).captcha_type = some 2) := by
  constructor
  · intro s p hg hb hm
    simp [identify_challenge, hg, hb, hm]
  · intro s p hm
    simp [identify_challenge, hm]

theorem classifier_override_order_witness :
    gridMatches (pyStrip (pyLower overridePrompt)) = true ∧
    bboxMatches (pyStrip (pyLower overridePrompt)) = true ∧
    mcMatches (pyStrip (pyLower overridePrompt)) = false ∧
    (identify_challenge
      { Session.fresh with target := overridePrompt }).captcha_type = some 1 :=
  ⟨by decide, by decide, by decide,
   classifier_override_order.1 Session.fresh overridePrompt
     (by decide) (by decide) (by decide)⟩

/-- C5 counterexample: in a session whose challenge type is already Grid
(`some 0`), classifying a prompt matching no phrase set leaves the type
Grid, not Unknown — the claim's "for every session state ... leaves the
challenge type Unknown" fails for states with a previously set type. -/
theorem no_match_stale_type_cex :
    gridMatches (pyStrip (pyLower "hello")) = false ∧
    bboxMatches (pyStrip (pyLower "hello")) = false ∧
    mcMatches (pyStrip (pyLower "hello")) = false ∧
    staleGridSession.captcha_type = some 0 ∧
    (identify_challenge staleGridSession).captcha_type = some 0 ∧
    (identify_challenge staleGridSession).captcha_type ≠ none := by
  decide

/-- C5 (amended): when the lower-cased, stripped prompt contains no
phrase from any of the three sets, `identify_challenge` leaves
`captcha_type` UNCHANGED; in particular a session whose type is still
Unknown (`none`, as at session start) stays Unknown, and the controller
dispatches no solver for it (see the C3 theorems: it keeps looping
rather than exiting). -/
theorem no_match_leaves_type_unchanged (s : Session)
    (hg : gridMatches (pyStrip (pyLower s.target)) = false)
    (hb : bboxMatches (pyStrip (pyLower s.target)) = false)
    (hm : mcMatches (pyStrip (pyLower s.target)) = false) :
    (identify_challenge s).captcha_type = s.captcha_type ∧
    (s.captcha_type = none → (identify_challenge s).captcha_type = none) := by
  have h : (identify_challenge s).captcha_type = s.captcha_type := by
    simp [identify_challenge, hg, hb, hm]
  exact ⟨h, fun h0 => h.trans h0⟩

theorem no_match_leaves_type_unchanged_witness :
    gridMatches (pyStrip (pyLower "hello")) = false ∧
    (identify_challenge
      { Session.fresh with target := "hello" }).captcha_type = none :=
  ⟨by decide,
   (no_match_leaves_type_unchanged { Session.fresh with target := "hello" }
      (by decide) (by decide) (by decide)).2 (by decide)⟩

theorem grid_once_post_effects (rng : ℕ → ℚ) (s : Session) (r : GridRound)
    (hc : r.clickable = true)
    (hst : (r.tileStyles.any fun st => st.isNone) = false) :
    (solve_hcaptcha_grid_once rng s r).session.requests_left =
      s.requests_left - 1 ∧
    (solve_hcaptcha_grid_once rng s r).posts = 1 := by
  simp only [solve_hcaptcha_grid_once]
  rw [if_neg (by simp [hc]), if_neg (by simp [hst])]
  split_ifs <;> exact ⟨rfl, rfl⟩

theorem bbox_once_post_effects (s : Session) (r : BboxRound)
    (hc : r.clickable = true) (him : ¬r.imageBase64 = "") :
    (solve_hcaptcha_bbox_once s r).session.requests_left =
      s.requests_left - 1 ∧
    (solve_hcaptcha_bbox_once s r).posts = 1 := by
  simp only [solve_hcaptcha_bbox_once]
  rw [if_neg (by simp [hc]), if_neg him]
  split_ifs
  · exact ⟨rfl, rfl⟩
  · split <;> exact ⟨rfl, rfl⟩

theorem run_attempt_post_requests (rng : ℕ → ℚ) (s : Session) (a : Attempt)
    (h : attempt_reaches_post a = true) :
    (run_attempt rng s a).requests_left = s.requests_left - 1 ∧
    attempt_posts rng s a = 1 := by
  cases a with
  | gridA r =>
    simp only [attempt_reaches_post, Bool.and_eq_true, Bool.not_eq_true'] at h
    exact grid_once_post_effects rng s r h.1 h.2
  | bboxA r =>
    simp only [attempt_reaches_post, Bool.and_eq_true, Bool.not_eq_true',
      decide_eq_false_iff_not] at h
    exact bbox_once_post_effects s r h.1 h.2

theorem run_attempt_no_post (rng : ℕ → ℚ) (s : Session) (a : Attempt)
    (h : attempt_reaches_post a = false) :
    (run_attempt rng s a).requests_left = s.requests_left ∧
    attempt_posts rng s a = 0 := by
  cases a with
  | gridA r =>
    by_cases hc : r.clickable = true
    · have hst : (r.tileStyles.any fun st => st.isNone) = true := by
        simp only [attempt_reaches_post, hc, Bool.true_and,
          Bool.not_eq_false'] at h
        exact h
      simp [run_attempt, attempt_posts, solve_hcaptcha_grid_once, hc, hst]
    · have hcf : r.clickable = false := by
        revert hc; cases r.clickable <;> simp
      simp [run_attempt, attempt_posts, solve_hcaptcha_grid_once, hcf]
  | bboxA r =>
    by_cases hc : r.clickable = true
    · have him : r.imageBase64 = "" := by
        simp only [attempt_reaches_post, hc, Bool.true_and,
          Bool.not_eq_false', decide_eq_true_eq] at h
        exact h
      simp [run_attempt, attempt_posts, solve_hcaptcha_bbox_once, hc, him]
    · have hcf : r.clickable = false := by
        revert hc; cases r.clickable <;> simp
      simp [run_attempt, attempt_posts, solve_hcaptcha_bbox_once, hcf]

theorem run_attempts_post_count (rng : ℕ → ℚ) :
    ∀ (l : List Attempt) (s : Session),
      (∀ a ∈ l, attempt_reaches_post a = true) →
      (run_attempts rng s l).requests_left = s.requests_left - l.length := by
  intro l
  induction l with
  | nil => intro s _; simp [run_attempts]
  | cons a rest ih =>
    intro s h
    have ha := run_attempt_post_requests rng s a (h a (by simp))
    have hr := ih (run_attempt rng s a) (fun b hb => h b (by simp [hb]))
    simp only [run_attempts] at hr ⊢
    rw [hr, ha.1]
    simp only [List.length_cons]
    push_cast
    ring

/-- C2: `requests_left` decreases by exactly 1 per grid solve POST and
exactly 1 per bbox solve POST; an attempt that never reaches its POST
leaves it unchanged; a bbox attempt's effect on `requests_left` is
independent of its poll iterations; `identify_challenge` and the
controller's own bookkeeping never change `requests_left` (only the
balance refresh and the POST paths do); and starting from
`requests_left = k`, after exactly `k` POST-reaching attempts the counter
is 0. -/
theorem requests_left_bookkeeping (rng : ℕ → ℚ) :
    (∀ (s : Session) (a : Attempt), attempt_reaches_post a = true →
        (run_attempt rng s a).requests_left = s.requests_left - 1 ∧
        attempt_posts rng s a = 1) ∧
    (∀ (s : Session) (a : Attempt), attempt_reaches_post a = false →
        (run_attempt rng s a).requests_left = s.requests_left ∧
        attempt_posts rng s a = 0) ∧
    (∀ (s : Session) (r : BboxRound) (polls : List String),
        (solve_hcaptcha_bbox_once s
            { r with pollStatuses := polls }).session.requests_left =
          (solve_hcaptcha_bbox_once s r).session.requests_left) ∧
    (∀ s : Session, (identify_challenge s).requests_left = s.requests_left) ∧
    (∀ (u : String) (s : Session) (env : LoopEnv),
        (solve_iteration u s env).1.requests_left =
          (has_balance u s env.balanceResp).session.requests_left) ∧
    (∀ (s : Session) (l : List Attempt),
        (∀ a ∈ l, attempt_reaches_post a = true) →
        s.requests_left = l.length →
        (run_attempts rng s l).requests_left = 0) := by
  refine ⟨fun s a h => run_attempt_post_requests rng s a h,
          fun s a h => run_attempt_no_post rng s a h, ?_, fun s => rfl, ?_, ?_⟩
  · intro s r polls
    by_cases hc : r.clickable = true
    · by_cases him : r.imageBase64 = ""
      · simp [solve_hcaptcha_bbox_once, hc, him]
      · rw [(bbox_once_post_effects s { r with pollStatuses := polls } hc him).1,
            (bbox_once_post_effects s r hc him).1]
    · have hcf : r.clickable = false := by
        revert hc; cases r.clickable <;> simp
      simp [solve_hcaptcha_bbox_once, hcf]
  · intro u s env
    rcases h : has_balance u s env.balanceResp with s1 | s1 <;>
      simp only [solve_iteration, h, BalanceResult.session]
    split_ifs <;> try rfl
    split <;> rfl
  · intro s l h hk
    rw [run_attempts_post_count rng l s h, hk]
    ring

theorem requests_left_bookkeeping_witness :
    attempt_reaches_post (Attempt.gridA gridRound25) = true ∧
    (run_attempt (fun _ => 0.22) { Session.fresh with requests_left := 1 }
        (Attempt.gridA gridRound25)).requests_left = 0 ∧
    (run_attempts (fun _ => 0.22) { Session.fresh with requests_left := 1 }
        [Attempt.gridA gridRound25]).requests_left = 0 :=
  ⟨by decide,
   by
     have h := ((requests_left_bookkeeping (fun _ => 0.22)).1
        { Session.fresh with requests_left := 1 } (Attempt.gridA gridRound25)
        (by decide)).1
     rw [h]; rfl,
   (requests_left_bookkeeping (fun _ => 0.22)).2.2.2.2.2
     { Session.fresh with requests_left := 1 } [Attempt.gridA gridRound25]
     (by decide) (by decide)⟩

/-- C7: for every bbox `Solved` answer `(x, y)` and canvas size `(w, h)`,
the solver's `move_by_offset` arguments are the negation of the computed
offset `(w/2 - x, h/2 - y)`, i.e. the cursor moves by exactly
`(x - w/2, y - h/2)` from the canvas center before clicking. -/
theorem bbox_click_offset_negated (s : Session) (r : BboxRound)
    (hc : r.clickable = true) (him : ¬r.imageBase64 = "")
    (hp : ¬r.postStatus = "error")
    (hpoll : poll_scan r.pollStatuses = PollResult.solvedR) :
    (solve_hcaptcha_bbox_once s r).moveBy =
      some ((r.canvasW / 2 - r.answer.1) * (-1),
            (r.canvasH / 2 - r.answer.2) * (-1)) ∧
    (solve_hcaptcha_bbox_once s r).moveBy =
      some (r.answer.1 - r.canvasW / 2, r.answer.2 - r.canvasH / 2) := by
  have h1 : (solve_hcaptcha_bbox_once s r).moveBy =
      some ((r.canvasW / 2 - r.answer.1) * (-1),
            (r.canvasH / 2 - r.answer.2) * (-1)) := by
    simp [solve_hcaptcha_bbox_once, hc, him, hp, hpoll]
  have hx : (r.canvasW / 2 - r.answer.1) * (-1) = r.answer.1 - r.canvasW / 2 := by
    ring
  have hy : (r.canvasH / 2 - r.answer.2) * (-1) = r.answer.2 - r.canvasH / 2 := by
    ring
  refine ⟨h1, h1.trans ?_⟩
  rw [hx, hy]

theorem bbox_click_offset_negated_witness :
    poll_scan bboxRoundSolved.pollStatuses = PollResult.solvedR ∧
    (solve_hcaptcha_bbox_once Session.fresh bboxRoundSolved).moveBy =
      some (-40, -5) := by
  refine ⟨by decide, ?_⟩
  have h := (bbox_click_offset_negated Session.fresh bboxRoundSolved
    (by decide) (by decide) (by decide) (by decide)).2
  rw [h]
  norm_num [bboxRoundSolved]

/-- C8: for every grid `Solved` response with selection list `s`, the grid
solver clicks exactly the tiles whose indices appear in `s`, in the order
given by `s`, with one randomized inter-click delay per click; every
delay produced by `random.uniform(0.2, 0.25)` lies in `[0.2, 0.25]`
seconds (200–250 ms). -/
theorem grid_clicks_match_selection (rng : ℕ → ℚ) (s : Session)
    (r : GridRound)
    (hrng : ∀ n, 0.2 ≤ rng n ∧ rng n ≤ 0.25)
    (hc : r.clickable = true)
    (hst : (r.tileStyles.any fun st => st.isNone) = false)
    (hsolved : r.status = "solved") :
    (solve_hcaptcha_grid_once rng s r).clicks = r.solution ∧
    (solve_hcaptcha_grid_once rng s r).delays.length = r.solution.length ∧
    (∀ d ∈ (solve_hcaptcha_grid_once rng s r).delays,
        0.2 ≤ d ∧ d ≤ 0.25) := by
  refine ⟨?_, ?_, ?_⟩
  · simp [solve_hcaptcha_grid_once, hc, hst, hsolved]
  · simp [solve_hcaptcha_grid_once, hc, hst, hsolved]
  · have hout : (solve_hcaptcha_grid_once rng s r).delays =
        (List.range r.solution.length).map rng := by
      simp [solve_hcaptcha_grid_once, hc, hst, hsolved]
    rw [hout]
    intro d hd
    rw [List.mem_map] at hd
    obtain ⟨n, hn, rfl⟩ := hd
    exact hrng n

theorem grid_clicks_match_selection_witness :
    gridRound25.solution = [2, 5] ∧
    (solve_hcaptcha_grid_once (fun _ => 0.22) Session.fresh
        gridRound25).clicks = [2, 5] ∧
    (∀ d ∈ (solve_hcaptcha_grid_once (fun _ => 0.22) Session.fresh
        gridRound25).delays, 0.2 ≤ d ∧ d ≤ 0.25) := by
  have h := grid_clicks_match_selection (fun _ => 0.22) Session.fresh
    gridRound25 (fun n => ⟨by norm_num, by norm_num⟩) (by decide) (by decide)
    (by decide)
  exact ⟨rfl, h.1, h.2.2⟩

/-- C9: for a grid or bbox invocation that reaches the submit step, the
solver performs exactly one immediate recursive re-solve when the submit
button's label attribute reads "Next Challenge" (the total invocation
count is one more than the continuation's), and returns without
recursing (invocation count 1) for any other label value, including an
absent attribute. -/
theorem next_challenge_recurses_once (rng : ℕ → ℚ) :
    (∀ (s : Session) (r : GridRound) (rest : List GridRound),
        r.clickable = true →
        (r.tileStyles.any fun st => st.isNone) = false →
        r.status = "solved" →
        ((r.submitLabel = some "Next Challenge" →
            (solve_hcaptcha_grid rng s (r :: rest)).2.2 =
              (solve_hcaptcha_grid rng
                (solve_hcaptcha_grid_once rng s r).session rest).2.2 + 1) ∧
         (¬r.submitLabel = some "Next Challenge" →
            (solve_hcaptcha_grid rng s (r :: rest)).2.2 = 1))) ∧
    (∀ (s : Session) (r : BboxRound) (rest : List BboxRound),
        r.clickable = true →
        ¬r.imageBase64 = "" →
        ¬r.postStatus = "error" →
        poll_scan r.pollStatuses = PollResult.solvedR →
        ((r.submitLabel = some "Next Challenge" →
            (solve_hcaptcha_bbox s (r :: rest)).2.2 =
              (solve_hcaptcha_bbox
                (solve_hcaptcha_bbox_once s r).session rest).2.2 + 1) ∧
         (¬r.submitLabel = some "Next Challenge" →
            (solve_hcaptcha_bbox s (r :: rest)).2.2 = 1))) := by
  constructor
  · intro s r rest hc hst hsolved
    constructor
    · intro hlabel
      have hw : (solve_hcaptcha_grid_once rng s r).wantsNext = true := by
        simp [solve_hcaptcha_grid_once, hc, hst, hsolved, hlabel]
      simp [solve_hcaptcha_grid, hw]
    · intro hlabel
      have hw : (solve_hcaptcha_grid_once rng s r).wantsNext = false := by
        simp [solve_hcaptcha_grid_once, hc, hst, hsolved, hlabel]
      simp [solve_hcaptcha_grid, hw]
  · intro s r rest hc him hp hpoll
    constructor
    · intro hlabel
      have hw : (solve_hcaptcha_bbox_once s r).wantsNext = true := by
        simp [solve_hcaptcha_bbox_once, hc, him, hp, hpoll, hlabel]
      simp [solve_hcaptcha_bbox, hw]
    · intro hlabel
      have hw : (solve_hcaptcha_bbox_once s r).wantsNext = false := by
        simp [solve_hcaptcha_bbox_once, hc, him, hp, hpoll, hlabel]
      simp [solve_hcaptcha_bbox, hw]

theorem next_challenge_recurses_once_witness :
    gridRound25.submitLabel = some "Next Challenge" ∧
    (solve_hcaptcha_grid (fun _ => 0.22) Session.fresh [gridRound25]).2.2 =
      (solve_hcaptcha_grid (fun _ => 0.22)
        (solve_hcaptcha_grid_once (fun _ => 0.22) Session.fresh
          gridRound25).session []).2.2 + 1 :=
  ⟨rfl,
   ((next_challenge_recurses_once (fun _ => 0.22)).1 Session.fresh gridRound25
      [] (by decide) (by decide) rfl).1 rfl⟩

/-- C10: on the silent-abort paths — the grid solver returning because
some tile's style attribute is absent, and the bbox solver returning
because the canvas snapshot script yields an empty result — the method
returns with the rendering context still inside the challenge iframe
(`Ctx.frame`; `switch_to.default_content` is not called), with no solve
POST sent, and with the session (in particular `requests_left` and
`solved`) completely unchanged. -/
theorem silent_abort_effects (rng : ℕ → ℚ) :
    (∀ (s : Session) (r : GridRound),
        r.clickable = true →
        (r.tileStyles.any fun st => st.isNone) = true →
        solve_hcaptcha_grid_once rng s r =
          { session := s, ctx := Ctx.frame, clicks := [], delays := [],
            posts := 0, refreshClicks := 0, wantsNext := false }) ∧
    (∀ (s : Session) (r : BboxRound),
        r.clickable = true →
        r.imageBase64 = "" →
        solve_hcaptcha_bbox_once s r =
          { session := s, ctx := Ctx.frame, moveBy := none, posts := 0,
            refreshClicks := 0, wantsNext := false, terminated := true }) := by
  constructor
  · intro s r hc hst
    simp [solve_hcaptcha_grid_once, hc, hst]
  · intro s r hc him
    simp [solve_hcaptcha_bbox_once, hc, him]

theorem silent_abort_effects_witness :
    gridRoundNoStyle.clickable = true ∧
    (gridRoundNoStyle.tileStyles.any fun st => st.isNone) = true ∧
    (solve_hcaptcha_grid_once (fun _ => 0.22) Session.fresh
        gridRoundNoStyle).ctx = Ctx.frame ∧
    (solve_hcaptcha_grid_once (fun _ => 0.22) Session.fresh
        gridRoundNoStyle).posts = 0 ∧
    (solve_hcaptcha_grid_once (fun _ => 0.22) Session.fresh
        gridRoundNoStyle).session = Session.fresh ∧
    (solve_hcaptcha_bbox_once Session.fresh bboxRoundNoImage).ctx =
      Ctx.frame ∧
    (solve_hcaptcha_bbox_once Session.fresh bboxRoundNoImage).session =
      Session.fresh := by
  have hg := (silent_abort_effects (fun _ => 0.22)).1 Session.fresh
    gridRoundNoStyle (by decide) (by decide)
  have hb := (silent_abort_effects (fun _ => 0.22)).2 Session.fresh
    bboxRoundNoImage (by decide) (by decide)
  exact ⟨by decide, by decide, by rw [hg], by rw [hg], by rw [hg],
    by rw [hb], by rw [hb]⟩

end NoCaptchaAISolver
